import Mathlib

/-!
# Verification of the job-scraper pipeline (`main.py`, `send_message.py`)

A shallow embedding of the discovery-and-dedup pipeline:

* the Document Extractor inlined in `scrape_gupy` (BeautifulSoup queries over
  one HTML snapshot),
* the pagination loop of `scrape_gupy` driven by a Playwright page,
* the SQLite-backed dedup store (`is_job_in_db`, `add_job_to_db`),
* the Discord notifier (`format_discord_message`, `send_to_discord`),
* the `__main__` orchestration (filter new jobs, notify, commit on success).

HTML snapshots are modelled by the shape the code actually queries: the
result of `soup.find('main', id='main-content')`, its first `ul`, the `li`
items, and per item the first `h3`, the first `a` (with its `href`
attribute), and the two optional `select_one` targets.  A found
BeautifulSoup tag is truthy (`Tag.__bool__` returns `True` even for an
empty tag), so the code's `if titulo_tag and link_tag and
link_tag.has_attr('href')` and `... if location_tag else ...` guards are
presence checks, modelled with `Option`.  `tag.get_text(strip=True)` is
modelled by storing the stripped text directly.
-/

namespace JobScraper

/-- A BeautifulSoup tag as the code consumes it: only its
`get_text(strip=True)` result is read.  The stripped text of a tag whose
content is empty or all whitespace is the empty string. -/
structure Tag where
  text : String
  deriving Repr, DecidableEq

/-- An anchor tag: the code reads only `has_attr('href')` and `a["href"]`,
so we keep the optional `href` attribute value. -/
structure ATag where
  href : Option String
  deriving Repr, DecidableEq

/-- One `li` item of the listing, as queried by the extraction loop:
`vaga_html.find("h3")`, `vaga_html.find("a")`,
`vaga_html.select_one('span[data-testid="job-location"]')` and
`vaga_html.select_one('div[aria-label^="Modelo de trabalho"] span')`,
each `none` when the query finds nothing. -/
structure Vaga where
  h3 : Option Tag
  a : Option ATag
  locationSpan : Option Tag
  workModelSpan : Option Tag
  deriving Repr, DecidableEq

/-- The `ul` holding the listings; `find_all("li")` yields its items. -/
structure UlTag where
  items : List Vaga
  deriving Repr, DecidableEq

/-- The `main#main-content` region; `.find('ul')` may find nothing. -/
structure MainTag where
  ul : Option UlTag
  deriving Repr, DecidableEq

/-- A parsed snapshot: `soup.find('main', id='main-content')` may itself
find nothing (`None`). -/
structure Soup where
  mainContent : Option MainTag
  deriving Repr, DecidableEq

/-- One extracted job record (the `vaga_data` dict of `main.py`). -/
structure VagaData where
  title : String
  link : String
  location : String
  work_model : String
  deriving Repr, DecidableEq

/-- Python `str.startswith`: a Boolean string-prefix test, computed on the
character lists so the kernel can evaluate it. -/
def strStartsWith (s pre : String) : Bool :=
  pre.toList.isPrefixOf s.toList

/-- `main.py` line 102-103: `if not link.startswith("http"): link =
"https://portal.gupy.io" + link`. -/
def normalizeLink (link : String) : String :=
  if strStartsWith link "http" then link else "https://portal.gupy.io" ++ link

/-- `location_tag.get_text(strip=True) if location_tag else "Não informado"`
(and the same for the work-model span). -/
def optionalFieldText (t : Option Tag) : String :=
  match t with
  | some tag => tag.text
  | none => "Não informado"

/-- The per-item extraction (`main.py` lines 95-114): build a record when
the item has an `h3`, an `a`, and the `a` has an `href`; otherwise the
item contributes nothing. -/
def extractVaga (v : Vaga) : Option VagaData :=
  match v.h3, v.a with
  | some titulo, some linkTag =>
    match linkTag.href with
    | some href =>
      some { title := titulo.text
           , link := normalizeLink href
           , location := optionalFieldText v.locationSpan
           , work_model := optionalFieldText v.workModelSpan }
    | none => none
  | _, _ => none

/-- Outcome of processing one snapshot, `main.py` lines 84-114:
`attrError` models the uncaught `AttributeError` raised by
`soup.find('main', id='main-content').find('ul')` when the `main` region
is absent (`find` returns `None`, and `None.find('ul')` raises);
`containerMissing` models `if not job_list_container: break`;
`ok records` is the list built by `vagas_encontradas.append`. -/
inductive ExtractResult where
  | attrError
  | containerMissing
  | ok (records : List VagaData)
  deriving Repr, DecidableEq

/-- Extraction of one snapshot (`main.py` lines 84-114). -/
def extractPage (s : Soup) : ExtractResult :=
  match s.mainContent with
  | none => ExtractResult.attrError
  | some m =>
    match m.ul with
    | none => ExtractResult.containerMissing
    | some ul => ExtractResult.ok (ul.items.filterMap extractVaga)

/-! ## Pagination loop (`scrape_gupy`, `main.py` lines 59-141)

The Playwright page is modelled as an environment assigning to each page
index the snapshot the wait yields, whether the waits time out, and the
state of the `button[aria-label="Next page"]` control.  The renderer
actions the loop performs are logged so that claims about "touching the
renderer" can be stated. -/

/-- The next-page button; the code reads only `is_disabled()`. -/
structure NextButton where
  disabled : Bool
  deriving Repr, DecidableEq

/-- The renderer's behaviour while the crawler is on one page:
whether `page.wait_for_selector('main#main-content ul')` times out
(raising `PlaywrightTimeoutError`), the parsed snapshot `page.content()`
yields, the result of `page.query_selector('button[aria-label="Next
page"]')`, and whether `page.wait_for_load_state('networkidle')` after a
click times out. -/
structure PageEnv where
  waitTimeout : Bool
  soup : Soup
  nextButton : Option NextButton
  loadTimeout : Bool
  deriving Repr, DecidableEq

/-- A renderer action issued by the loop, tagged with the value of
`page_count` when it was issued. -/
inductive RAction where
  | waitForSelector (pageIdx : Nat)
  | queryNext (pageIdx : Nat)
  | click (pageIdx : Nat)
  deriving Repr, DecidableEq

/-- The `page_count` at which an action was issued. -/
def RAction.page : RAction → Nat
  | RAction.waitForSelector i => i
  | RAction.queryNext i => i
  | RAction.click i => i

/-- Whether an action is the `wait_for_selector` issued once per visited
page, at the top of the loop body. -/
def RAction.isWait : RAction → Bool
  | RAction.waitForSelector _ => true
  | _ => false

/-- The pagination condition `if next_button and not
next_button.is_disabled()` (`main.py` line 124): `query_selector` returned
an element and it is not disabled. -/
def buttonActive : Option NextButton → Bool
  | some btn => !btn.disabled
  | none => false

/-- The `while page_count <= max_pages` loop of `scrape_gupy`
(`main.py` lines 77-133), returning the collected records together with
the log of renderer actions.  Exceptions (`wait_for_selector` timeout, the
`AttributeError` on a missing `main` region, `wait_for_load_state` timeout
after a click) are caught by the function's `except` handler, which
returns `vagas_encontradas` as collected so far; `if not
job_list_container` and a missing/disabled next button `break`.  The loop
terminates because each iteration that does not return increments
`page_count`, bounded by `max_pages`. -/
def crawlFrom (env : Nat → PageEnv) (maxPages : Nat) (pageCount : Nat)
    (acc : List VagaData) (log : List RAction) : List VagaData × List RAction :=
  if _h : pageCount ≤ maxPages then
    let e := env pageCount
    let log1 := log ++ [RAction.waitForSelector pageCount]
    if e.waitTimeout then (acc, log1)
    else
      match extractPage e.soup with
      | ExtractResult.attrError => (acc, log1)
      | ExtractResult.containerMissing => (acc, log1)
      | ExtractResult.ok recs =>
        let acc1 := acc ++ recs
        let log2 := log1 ++ [RAction.queryNext pageCount]
        if buttonActive e.nextButton then
          let log3 := log2 ++ [RAction.click pageCount]
          if e.loadTimeout then (acc1, log3)
          else crawlFrom env maxPages (pageCount + 1) acc1 log3
        else (acc1, log2)
  else (acc, log)
termination_by maxPages + 1 - pageCount
decreasing_by simp_wf; omega

/-- `scrape_gupy(url, max_pages)`: the crawl starts at `page_count = 1`
with no records collected. -/
def scrape_gupy (env : Nat → PageEnv) (maxPages : Nat) : List VagaData × List RAction :=
  crawlFrom env maxPages 1 [] []

/-- The entry point's call `scrape_gupy(GUPY_URL)` (`main.py` line 191)
uses the default `max_pages=5`. -/
def scrapeDefault (env : Nat → PageEnv) : List VagaData × List RAction :=
  scrape_gupy env 5

/-! ## Dedup store (`is_job_in_db`, `add_job_to_db`)

The SQLite table `jobs(link TEXT PRIMARY KEY)` is modelled as the list of
its rows; the primary key makes `INSERT OR IGNORE` a no-op on a present
link. -/

/-- `is_job_in_db` (`main.py` lines 37-45): `SELECT 1 FROM jobs WHERE
link = ?` finds a row iff the link is in the table. -/
def is_job_in_db (db : List String) (link : String) : Bool :=
  db.contains link

/-- `add_job_to_db` (`main.py` lines 48-56): `INSERT OR IGNORE INTO jobs
(link) VALUES (?)` appends a row unless the primary key is already
present. -/
def add_job_to_db (db : List String) (link : String) : List String :=
  if db.contains link then db else db ++ [link]

/-! ## Notifier (`format_discord_message`, `send_to_discord`) -/

/-- `format_discord_message` (`main.py` lines 144-155). -/
def format_discord_message (job : VagaData) : String :=
  "---\n\n**🍞 OPAAA - Chegando mais uma vaga fresquinha**\n\n**💼 "
    ++ job.title ++ "**\n📍 **Local:** " ++ job.location
    ++ "\n🏢 **Modelo:** " ++ job.work_model
    ++ "\n\n🔗 [Ver vaga](" ++ job.link ++ ")\n\n"

/-- What the outside world does with one `requests.post` call: either an
HTTP response with some status code arrives, or the transport fails and
`requests.post` raises (`requests.exceptions.ConnectionError` etc.). -/
inductive HttpOutcome where
  | response (status : Nat)
  | transportError
  deriving Repr, DecidableEq

/-- How one call of `send_to_discord` ends: a normal `return` of a Bool,
or an exception propagating out of the function (no `try` in its body). -/
inductive SendResult where
  | ok (success : Bool)
  | exn
  deriving Repr, DecidableEq

/-- `send_to_discord` (`main.py` lines 158-180).  `DISCORD_WEBHOOK_URL`
comes from `os.getenv`, so it is `None` when unset; `if not webhook_url`
is also true for an empty string.  When the URL is present,
`requests.post` runs: a raised transport error is not caught, and an
arrived response yields `response.status_code == 204`. -/
def send_to_discord (webhookUrl : Option String) (outcome : HttpOutcome) : SendResult :=
  if webhookUrl.getD "" = "" then SendResult.ok false
  else
    match outcome with
    | HttpOutcome.response status => SendResult.ok (status == 204)
    | HttpOutcome.transportError => SendResult.exn

/-! ## Orchestration (`__main__`, `main.py` lines 185-218) -/

/-- The filter building `vagas_novas` (`main.py` lines 193-196). -/
def filterNew (db : List String) (vagas : List VagaData) : List VagaData :=
  vagas.filter (fun v => !is_job_in_db db v.link)

/-- The notification loop (`main.py` lines 205-216) over the new records
paired with the outcome of each record's `requests.post`.  Returns the
final table and the number of delivery attempts made.  On `ok true` the
link is committed with `add_job_to_db`; on `ok false` the commit is
skipped and the loop continues; on an uncaught exception the loop (and
the whole `__main__` script) aborts, leaving the table as it is. -/
def notifyLoop (webhookUrl : Option String) (db : List String) :
    List (VagaData × HttpOutcome) → List String × Nat
  | [] => (db, 0)
  | (vaga, outcome) :: rest =>
    match send_to_discord webhookUrl outcome with
    | SendResult.exn => (db, 1)
    | SendResult.ok true =>
      let r := notifyLoop webhookUrl (add_job_to_db db vaga.link) rest
      (r.1, r.2 + 1)
    | SendResult.ok false =>
      let r := notifyLoop webhookUrl db rest
      (r.1, r.2 + 1)

/-- One full run of the filter-and-notify phase (`main.py` lines
193-216): build `vagas_novas` from the scraped records and the current
table, then notify them in order; `outcomes i` is the outcome of the
`i`-th `requests.post` of the run. -/
def pipelineRun (webhookUrl : Option String) (outcomes : Nat → HttpOutcome)
    (db : List String) (vagas : List VagaData) : List String × Nat :=
  let novas := filterNew db vagas
  notifyLoop webhookUrl db (novas.zip ((List.range novas.length).map outcomes))

/-! ## Spec-side definition for the link-normalization claim -/

/-- Whether a character may occur in a URI scheme after its first letter
(RFC 3986: letters, digits, `+`, `-`, `.`). -/
def isSchemeChar (c : Char) : Bool :=
  c.isAlphanum || c == '+' || c == '-' || c == '.'

/-- Helper for `specHasScheme`: scan for the terminating colon. -/
def schemeTail : List Char → Bool
  | [] => false
  | c :: rest => c == ':' || (isSchemeChar c && schemeTail rest)

/-- Modelled from the spec: the spec's phrase "if the href does not start
with a scheme" — a URI scheme prefix `ALPHA *( ALPHA / DIGIT / "+" / "-"
/ "." ) ":"` per RFC 3986.  Declared only to compare the spec's wording
with the code's `link.startswith("http")` test; the code itself never
computes this. -/
def specHasScheme (s : String) : Bool :=
  match s.toList with
  | [] => false
  | c :: rest => c.isAlpha && schemeTail rest

/-! ## Concrete snapshots and records used by witnesses and counterexamples -/

/-- A snapshot whose `main#main-content` region holds a `ul` with the
given items. -/
def soupOf (items : List Vaga) : Soup :=
  { mainContent := some { ul := some { items := items } } }

/-- A fully populated list item. -/
def vagaItemFull : Vaga :=
  { h3 := some { text := "Dev Python" }, a := some { href := some "/vaga/123" }
  , locationSpan := some { text := "São Paulo" }, workModelSpan := some { text := "Remoto" } }

/-- The record `extractVaga` produces from `vagaItemFull`. -/
def vagaDataFull : VagaData :=
  { title := "Dev Python", link := "https://portal.gupy.io/vaga/123"
  , location := "São Paulo", work_model := "Remoto" }

/-- A list item with a title but no anchor at all. -/
def vagaItemNoLink : Vaga :=
  { h3 := some { text := "Analista" }, a := none
  , locationSpan := none, workModelSpan := none }

/-- A list item with title and link but neither optional element. -/
def vagaItemNoOptional : Vaga :=
  { h3 := some { text := "Engenheira de Dados" }, a := some { href := some "/vaga/77" }
  , locationSpan := none, workModelSpan := none }

/-- A list item whose href carries a non-http scheme. -/
def vagaItemFtp : Vaga :=
  { h3 := some { text := "Arquivista" }, a := some { href := some "ftp://files.example.com/x" }
  , locationSpan := none, workModelSpan := none }

/-- A list item modelling `<li><h3> </h3><a href="/vaga/9">Ver</a></li>`:
the `h3` exists (and, holding a whitespace text node, is truthy), but
`get_text(strip=True)` on it gives `""`. -/
def vagaItemBlankTitle : Vaga :=
  { h3 := some { text := "" }, a := some { href := some "/vaga/9" }
  , locationSpan := none, workModelSpan := none }

/-- A record whose delivery will be attempted in witnesses. -/
def vagaDataFail : VagaData :=
  { title := "Dev Júnior", link := "https://portal.gupy.io/vaga/2"
  , location := "Remoto", work_model := "Não informado" }

/-- A renderer in which every page renders the same single listing and
offers an enabled next-page button. -/
def envClickOnCap : Nat → PageEnv := fun _ =>
  { waitTimeout := false, soup := soupOf [vagaItemFull]
  , nextButton := some { disabled := false }, loadTimeout := false }

/-! ## Helper lemmas -/

lemma mem_add_job_to_db (db : List String) (l x : String) :
    x ∈ add_job_to_db db l ↔ x ∈ db ∨ x = l := by
  unfold add_job_to_db
  by_cases h : db.contains l = true <;> simp [h] <;> aesop

lemma notifyLoop_subset (url : Option String) (pairs : List (VagaData × HttpOutcome))
    (db : List String) (x : String) (hx : x ∈ db) :
    x ∈ (notifyLoop url db pairs).1 := by
  induction pairs generalizing db with
  | nil => simpa [notifyLoop]
  | cons p rest ih =>
    obtain ⟨v, o⟩ := p
    cases h : send_to_discord url o with
    | exn => simpa [notifyLoop, h]
    | ok b =>
      cases b
      · simpa [notifyLoop, h] using ih db hx
      · simp only [notifyLoop, h]
        exact ih _ ((mem_add_job_to_db db v.link x).mpr (Or.inl hx))

lemma notifyLoop_mem_of_success (url : Option String)
    (pairs : List (VagaData × HttpOutcome)) (db : List String)
    (hall : ∀ p ∈ pairs, send_to_discord url p.2 = SendResult.ok true) :
    ∀ p ∈ pairs, p.1.link ∈ (notifyLoop url db pairs).1 := by
  induction pairs generalizing db with
  | nil => simp
  | cons q rest ih =>
    obtain ⟨v, o⟩ := q
    intro p hp
    have hq : send_to_discord url o = SendResult.ok true := hall (v, o) (by simp)
    simp only [notifyLoop, hq]
    rcases List.mem_cons.mp hp with h | h
    · subst h
      exact notifyLoop_subset url rest _ _ ((mem_add_job_to_db db v.link v.link).mpr (Or.inr rfl))
    · exact ih _ (fun q hq' => hall q (List.mem_cons_of_mem _ hq')) p h

lemma send_ok_of_204 (url : Option String) (hurl : url.getD "" ≠ "") :
    send_to_discord url (HttpOutcome.response 204) = SendResult.ok true := by
  simp [send_to_discord, hurl]

/-! ## Claim theorems -/

/-- C1: in the notification loop, a dedup entry for a record's link is
committed only after `send_to_discord` returned `True` for it: if a link
is not already stored and no delivery for it reports success, the link is
absent from the store after the run; and a delivery that reports failure
leaves the store unchanged at that step while the loop continues with the
next record. -/
theorem notify_commit_only_after_success (url : Option String)
    (pairs : List (VagaData × HttpOutcome)) (db : List String) (link : String)
    (hdb : link ∉ db)
    (hfail : ∀ p ∈ pairs, p.1.link = link → send_to_discord url p.2 ≠ SendResult.ok true) :
    link ∉ (notifyLoop url db pairs).1 ∧
    ∀ (v : VagaData) (o : HttpOutcome) (rest : List (VagaData × HttpOutcome))
      (db2 : List String), send_to_discord url o = SendResult.ok false →
        notifyLoop url db2 ((v, o) :: rest)
          = ((notifyLoop url db2 rest).1, (notifyLoop url db2 rest).2 + 1) := by
  constructor
  · induction pairs generalizing db with
    | nil => simpa [notifyLoop]
    | cons q rest ih =>
      obtain ⟨v, o⟩ := q
      cases h : send_to_discord url o with
      | exn => simpa [notifyLoop, h]
      | ok b =>
        cases b
        · simp only [notifyLoop, h]
          exact ih db hdb (fun p hp => hfail p (List.mem_cons_of_mem _ hp))
        · simp only [notifyLoop, h]
          have hne : v.link ≠ link := fun he => hfail (v, o) (by simp) he h
          refine ih _ (fun hm => ?_) (fun p hp => hfail p (List.mem_cons_of_mem _ hp))
          rcases (mem_add_job_to_db db v.link link).mp hm with h1 | h1
          · exact hdb h1
          · exact hne h1.symm
  · intro v o rest db2 h
    simp [notifyLoop, h]

/-- Witness for C1: with an empty store and a single new record whose
delivery gets HTTP 500, the record's link is absent from the store after
the loop. -/
theorem notify_commit_only_after_success_witness :
    "https://portal.gupy.io/vaga/2" ∉
      (notifyLoop (some "https://discord.test/hook") []
        [(vagaDataFail, HttpOutcome.response 500)]).1 :=
  (notify_commit_only_after_success (some "https://discord.test/hook")
    [(vagaDataFail, HttpOutcome.response 500)] [] "https://portal.gupy.io/vaga/2"
    (by decide) (by decide)).1

/-- C4 counterexample: the claim says a transport/network failure is
reported as `failure` and never escapes the Notifier, but `send_to_discord`
wraps `requests.post` in no `try`, so a transport error propagates out of
the function as an exception instead of a `False` return. -/
theorem send_transport_error_raises :
    send_to_discord (some "https://discord.test/hook") HttpOutcome.transportError
      = SendResult.exn := by
  decide

/-- C4 amended: when an HTTP response arrives, `send_to_discord` returns
success iff the status is 204, any other status is reported as a `False`
return (not an exception), and a missing or empty webhook URL yields a
`False` return without any request; a transport failure, however, raises. -/
theorem send_success_iff_status_204 (url : String) (status : Nat) (hurl : url ≠ "") :
    (send_to_discord (some url) (HttpOutcome.response status) = SendResult.ok true
      ↔ status = 204) ∧
    send_to_discord (some url) (HttpOutcome.response status) ≠ SendResult.exn ∧
    send_to_discord none (HttpOutcome.response status) = SendResult.ok false ∧
    send_to_discord (some "") (HttpOutcome.response status) = SendResult.ok false := by
  refine ⟨?_, ?_, ?_, ?_⟩ <;> simp [send_to_discord, hurl]

/-- Witness for C4 (amended): a concrete URL and status 204 satisfy the
success condition. -/
theorem send_success_iff_status_204_witness :
    (send_to_discord (some "https://discord.test/hook") (HttpOutcome.response 204)
      = SendResult.ok true ↔ (204 : Nat) = 204) ∧
    send_to_discord (some "https://discord.test/hook") (HttpOutcome.response 204)
      ≠ SendResult.exn ∧
    send_to_discord none (HttpOutcome.response 204) = SendResult.ok false ∧
    send_to_discord (some "") (HttpOutcome.response 204) = SendResult.ok false :=
  send_success_iff_status_204 "https://discord.test/hook" 204 (by decide)

/-- C6: running the filter-and-notify phase twice over an unchanged
record list, with every first-run delivery answered by HTTP 204, leaves
nothing for the second run: the filter empties the list and the second
run performs zero delivery attempts. -/
theorem pipeline_second_run_sends_nothing (url : Option String)
    (outcomes1 outcomes2 : Nat → HttpOutcome) (db : List String) (vagas : List VagaData)
    (hurl : url.getD "" ≠ "")
    (hsucc : ∀ i, outcomes1 i = HttpOutcome.response 204) :
    filterNew (pipelineRun url outcomes1 db vagas).1 vagas = [] ∧
    (pipelineRun url outcomes2 (pipelineRun url outcomes1 db vagas).1 vagas).2 = 0 := by
  have hmain : filterNew (pipelineRun url outcomes1 db vagas).1 vagas = [] := by
    rw [filterNew, List.filter_eq_nil_iff]
    intro v hv
    simp only [Bool.not_eq_true', Bool.not_eq_false, is_job_in_db, List.elem_iff]
    show v.link ∈ (pipelineRun url outcomes1 db vagas).1
    rw [pipelineRun]
    by_cases hvdb : v.link ∈ db
    · exact notifyLoop_subset _ _ _ _ hvdb
    · have hvn : v ∈ filterNew db vagas := by
        simp [filterNew, is_job_in_db, List.elem_iff, hv, hvdb]
      obtain ⟨i, hi, hv'⟩ := List.mem_iff_getElem.mp hvn
      have hall : ∀ p ∈ (filterNew db vagas).zip
          ((List.range (filterNew db vagas).length).map outcomes1),
          send_to_discord url p.2 = SendResult.ok true := by
        intro p hp
        have h2 := (List.of_mem_zip hp).2
        simp only [List.mem_map, List.mem_range] at h2
        obtain ⟨j, _, hj⟩ := h2
        rw [← hj, hsucc j]
        exact send_ok_of_204 url hurl
      have hpmem : (v, outcomes1 i) ∈ (filterNew db vagas).zip
          ((List.range (filterNew db vagas).length).map outcomes1) := by
        have hlen : i < ((filterNew db vagas).zip
            ((List.range (filterNew db vagas).length).map outcomes1)).length := by
          simp [hi]
        have hg : ((filterNew db vagas).zip
            ((List.range (filterNew db vagas).length).map outcomes1)).get ⟨i, hlen⟩
            = (v, outcomes1 i) := by
          simp [List.get_eq_getElem, List.getElem_zip, hv', hi]
        rw [← hg]
        exact List.get_mem _ _ hlen
      exact notifyLoop_mem_of_success url _ db hall (v, outcomes1 i) hpmem
  refine ⟨hmain, ?_⟩
  rw [pipelineRun, hmain]
  simp [notifyLoop]

/-- Witness for C6: one record, empty store, all deliveries 204. -/
theorem pipeline_second_run_sends_nothing_witness :
    filterNew (pipelineRun (some "https://discord.test/hook")
      (fun _ => HttpOutcome.response 204) [] [vagaDataFull]).1 [vagaDataFull] = [] ∧
    (pipelineRun (some "https://discord.test/hook") (fun _ => HttpOutcome.response 204)
      (pipelineRun (some "https://discord.test/hook")
        (fun _ => HttpOutcome.response 204) [] [vagaDataFull]).1 [vagaDataFull]).2 = 0 :=
  pipeline_second_run_sends_nothing (some "https://discord.test/hook")
    (fun _ => HttpOutcome.response 204) (fun _ => HttpOutcome.response 204)
    [] [vagaDataFull] (by decide) (fun _ => rfl)

/-- C3: the claim (and the spec) say a snapshot without the primary
listing container yields an empty sequence and no error, and the guard
`if not job_list_container: break` shows that intent; but the chained
query `soup.find('main', id='main-content').find('ul')` evaluates
`None.find('ul')` when the `main#main-content` region is absent, raising
`AttributeError` before the guard can run (the blanket `except` in
`scrape_gupy` then aborts the crawl with whatever was collected).  Only
when the region is present but holds no `ul` does the graceful branch
run. -/
theorem extract_missing_main_raises :
    extractPage { mainContent := none } = ExtractResult.attrError ∧
    extractPage { mainContent := some { ul := none } } = ExtractResult.containerMissing := by
  decide

/-- C5 counterexample: the claim says an href that already has a scheme
passes through unchanged, but the code tests `startswith("http")`, so the
scheme-carrying href `ftp://files.example.com/x` is still prefixed with
the base origin. -/
theorem normalize_rewrites_nonhttp_scheme :
    specHasScheme "ftp://files.example.com/x" = true ∧
    extractVaga vagaItemFtp = some
      { title := "Arquivista", link := "https://portal.gupy.ioftp://files.example.com/x"
      , location := "Não informado", work_model := "Não informado" } ∧
    "https://portal.gupy.ioftp://files.example.com/x" ≠ "ftp://files.example.com/x" := by
  decide

/-- C5 amended: the produced record's link is the href prefixed with the
base origin exactly when the href does not start with the literal
`"http"`, and passes through unchanged exactly when it does; for http and
https URLs and for relative paths this coincides with the claim, but an
href with a non-http scheme is also prefixed. -/
theorem extract_link_normalized (v : Vaga) (t : Tag) (a : ATag) (href : String)
    (r : VagaData) (hh : v.h3 = some t) (ha : v.a = some a) (hhref : a.href = some href)
    (hr : extractVaga v = some r) :
    (strStartsWith href "http" = true → r.link = href) ∧
    (strStartsWith href "http" = false → r.link = "https://portal.gupy.io" ++ href) := by
  simp only [extractVaga, hh, ha, hhref, Option.some.injEq] at hr
  subst hr
  constructor <;> intro h <;> simp [normalizeLink, h]

/-- Witness for C5 (amended): the relative href `/vaga/123` is prefixed
with the base origin. -/
theorem extract_link_normalized_witness :
    (strStartsWith "/vaga/123" "http" = true → vagaDataFull.link = "/vaga/123") ∧
    (strStartsWith "/vaga/123" "http" = false →
      vagaDataFull.link = "https://portal.gupy.io" ++ "/vaga/123") :=
  extract_link_normalized vagaItemFull { text := "Dev Python" }
    { href := some "/vaga/123" } "/vaga/123" vagaDataFull rfl rfl rfl (by decide)

/-- C7: an item lacking a title element, or lacking a link element with
an href, contributes no record, and the page containing it extracts to
exactly the records of the page without it (an `ok` result, so nothing is
raised). -/
theorem malformed_item_skipped (v : Vaga) (pre post : List Vaga)
    (hmal : v.h3 = none ∨ v.a = none ∨ v.a.bind ATag.href = none) :
    extractVaga v = none ∧
    extractPage (soupOf (pre ++ v :: post))
      = ExtractResult.ok ((pre ++ post).filterMap extractVaga) := by
  have hnone : extractVaga v = none := by
    rcases hmal with h | h | h
    · cases ha : v.a <;> simp [extractVaga, h, ha]
    · cases hh : v.h3 <;> simp [extractVaga, hh, h]
    · cases hh : v.h3 with
      | none => cases ha : v.a <;> simp [extractVaga, hh, ha]
      | some t =>
        cases ha : v.a with
        | none => simp [extractVaga, hh, ha]
        | some a =>
          rw [ha, Option.some_bind] at h
          simp [extractVaga, hh, ha, h]
  refine ⟨hnone, ?_⟩
  simp [extractPage, soupOf, List.filterMap_append, List.filterMap_cons, hnone]

/-- Witness for C7: an item with no anchor, between two well-formed
items, is dropped and the rest of the page extracts as if it were
absent. -/
theorem malformed_item_skipped_witness :
    extractVaga vagaItemNoLink = none ∧
    extractPage (soupOf ([vagaItemFull] ++ vagaItemNoLink :: [vagaItemNoOptional]))
      = ExtractResult.ok (([vagaItemFull] ++ [vagaItemNoOptional]).filterMap extractVaga) :=
  malformed_item_skipped vagaItemNoLink [vagaItemFull] [vagaItemNoOptional]
    (by decide)

/-- C8: an item with a title and a link-with-href but no locatable
location or work-model element yields a record carrying the placeholder
string in both optional fields. -/
theorem missing_optional_fields_yield_placeholder (v : Vaga) (t : Tag) (a : ATag)
    (href : String) (hh : v.h3 = some t) (ha : v.a = some a) (hhref : a.href = some href)
    (hloc : v.locationSpan = none) (hwm : v.workModelSpan = none) :
    extractVaga v = some { title := t.text, link := normalizeLink href
                         , location := "Não informado", work_model := "Não informado" } := by
  simp [extractVaga, optionalFieldText, hh, ha, hhref, hloc, hwm]

/-- Witness for C8: a concrete item with no optional elements. -/
theorem missing_optional_fields_yield_placeholder_witness :
    extractVaga vagaItemNoOptional = some
      { title := "Engenheira de Dados", link := normalizeLink "/vaga/77"
      , location := "Não informado", work_model := "Não informado" } :=
  missing_optional_fields_yield_placeholder vagaItemNoOptional
    { text := "Engenheira de Dados" } { href := some "/vaga/77" } "/vaga/77"
    rfl rfl rfl rfl rfl

/-- C9 counterexample: the claim says every record leaving the extractor
has a non-empty title, but an `h3` holding only whitespace is present
(and truthy), passes the guard, and `get_text(strip=True)` gives the
empty string, so a record with an empty title is produced. -/
theorem extract_title_can_be_empty :
    extractVaga vagaItemBlankTitle = some
      { title := "", link := "https://portal.gupy.io/vaga/9"
      , location := "Não informado", work_model := "Não informado" } := by
  decide

/-- C9 amended: every record leaving the extractor takes its title from a
present `h3` element's stripped text; that text is usually non-empty but
is the empty string when the `h3` contains only whitespace. -/
theorem extract_title_from_h3_text (v : Vaga) (r : VagaData)
    (hr : extractVaga v = some r) :
    v.h3.map Tag.text = some r.title := by
  cases hh : v.h3 with
  | none => simp [extractVaga, hh] at hr
  | some t =>
    cases ha : v.a with
    | none => simp [extractVaga, hh, ha] at hr
    | some a =>
      cases hhref : a.href with
      | none => simp [extractVaga, hh, ha, hhref] at hr
      | some href =>
        simp only [extractVaga, hh, ha, hhref, Option.some.injEq] at hr
        subst hr
        simp

/-- Witness for C9 (amended): the full item's record takes its title from
the item's `h3` text. -/
theorem extract_title_from_h3_text_witness :
    vagaItemFull.h3.map Tag.text = some vagaDataFull.title :=
  extract_title_from_h3_text vagaItemFull vagaDataFull (by decide)

/-! ## Crawl-loop lemmas -/

lemma countP_wait_one (i : Nat) :
    List.countP RAction.isWait [RAction.waitForSelector i] = 1 := rfl

lemma countP_query_zero (i : Nat) :
    List.countP RAction.isWait [RAction.queryNext i] = 0 := rfl

lemma countP_click_zero (i : Nat) :
    List.countP RAction.isWait [RAction.click i] = 0 := rfl

lemma countP_wqc_one (i : Nat) :
    List.countP RAction.isWait
      [RAction.waitForSelector i, RAction.queryNext i, RAction.click i] = 1 := rfl

lemma countP_wq_one (i : Nat) :
    List.countP RAction.isWait
      [RAction.waitForSelector i, RAction.queryNext i] = 1 := rfl

lemma crawlFrom_log_pages (env : Nat → PageEnv) (maxPages : Nat) :
    ∀ (pageCount : Nat) (acc : List VagaData) (log : List RAction),
      (∀ a ∈ log, RAction.page a ≤ maxPages) →
      ∀ a ∈ (crawlFrom env maxPages pageCount acc log).2, RAction.page a ≤ maxPages := by
  intro pageCount acc log
  induction pageCount, acc, log using crawlFrom.induct env maxPages with
  | case1 pageCount acc log hpc e hw =>
    intro hlog a ha
    rw [crawlFrom] at ha
    simp only [dif_pos hpc, if_pos hw] at ha
    rcases List.mem_append.mp ha with h | h
    · exact hlog a h
    · simp at h; simp [h, RAction.page, hpc]
  | case2 pageCount acc log hpc e hw hex =>
    intro hlog a ha
    rw [crawlFrom] at ha
    simp only [dif_pos hpc, if_neg hw, hex] at ha
    rcases List.mem_append.mp ha with h | h
    · exact hlog a h
    · simp at h; simp [h, RAction.page, hpc]
  | case3 pageCount acc log hpc e hw hex =>
    intro hlog a ha
    rw [crawlFrom] at ha
    simp only [dif_pos hpc, if_neg hw, hex] at ha
    rcases List.mem_append.mp ha with h | h
    · exact hlog a h
    · simp at h; simp [h, RAction.page, hpc]
  | case4 pageCount acc log hpc e hw recs hex hact hlt =>
    intro hlog a ha
    rw [crawlFrom] at ha
    simp only [dif_pos hpc, if_neg hw, hex, if_pos hact, if_pos hlt] at ha
    rcases List.mem_append.mp ha with h | h
    · rcases List.mem_append.mp h with h' | h'
      · rcases List.mem_append.mp h' with h'' | h''
        · exact hlog a h''
        · simp at h''; simp [h'', RAction.page, hpc]
      · simp at h'; simp [h', RAction.page, hpc]
    · simp at h; simp [h, RAction.page, hpc]
  | case5 pageCount acc log hpc e log1 hw recs hex acc1 log2 hact log3 hlt ih =>
    intro hlog a ha
    rw [crawlFrom] at ha
    simp only [dif_pos hpc, if_neg hw, hex, if_pos hact, if_neg hlt] at ha
    refine ih ?_ a ha
    intro x hx
    rcases List.mem_append.mp hx with h | h
    · rcases List.mem_append.mp h with h' | h'
      · rcases List.mem_append.mp h' with h'' | h''
        · exact hlog x h''
        · simp at h''; simp [h'', RAction.page, hpc]
      · simp at h'; simp [h', RAction.page, hpc]
    · simp at h; simp [h, RAction.page, hpc]
  | case6 pageCount acc log hpc e hw recs hex hact =>
    intro hlog a ha
    rw [crawlFrom] at ha
    simp only [dif_pos hpc, if_neg hw, hex, if_neg hact] at ha
    rcases List.mem_append.mp ha with h | h
    · rcases List.mem_append.mp h with h' | h'
      · exact hlog a h'
      · simp at h'; simp [h', RAction.page, hpc]
    · simp at h; simp [h, RAction.page, hpc]
  | case7 pageCount acc log hpc =>
    intro hlog a ha
    rw [crawlFrom] at ha
    simp only [dif_neg hpc] at ha
    exact hlog a ha

lemma crawlFrom_wait_count (env : Nat → PageEnv) (maxPages : Nat) :
    ∀ (pageCount : Nat) (acc : List VagaData) (log : List RAction),
      (crawlFrom env maxPages pageCount acc log).2.countP RAction.isWait
        ≤ log.countP RAction.isWait + (maxPages + 1 - pageCount) := by
  intro pageCount acc log
  induction pageCount, acc, log using crawlFrom.induct env maxPages with
  | case1 pageCount acc log hpc e hw =>
    rw [crawlFrom]
    simp only [dif_pos hpc, if_pos hw, List.countP_append, countP_wait_one]
    omega
  | case2 pageCount acc log hpc e hw hex =>
    rw [crawlFrom]
    simp only [dif_pos hpc, if_neg hw, hex, List.countP_append, countP_wait_one]
    omega
  | case3 pageCount acc log hpc e hw hex =>
    rw [crawlFrom]
    simp only [dif_pos hpc, if_neg hw, hex, List.countP_append, countP_wait_one]
    omega
  | case4 pageCount acc log hpc e hw recs hex hact hlt =>
    rw [crawlFrom]
    simp only [dif_pos hpc, if_neg hw, hex, if_pos hact, if_pos hlt, List.countP_append,
      countP_wait_one, countP_query_zero, countP_click_zero]
    omega
  | case5 pageCount acc log hpc e log1 hw recs hex acc1 log2 hact log3 hlt ih =>
    rw [crawlFrom]
    simp only [dif_pos hpc, if_neg hw, hex, if_pos hact, if_neg hlt]
    refine le_trans ih ?_
    simp [log3, log2, log1, List.countP_append, countP_wait_one, countP_query_zero,
      countP_click_zero, countP_wqc_one, countP_wq_one]
    omega
  | case6 pageCount acc log hpc e hw recs hex hact =>
    rw [crawlFrom]
    simp only [dif_pos hpc, if_neg hw, hex, if_neg hact, List.countP_append,
      countP_wait_one, countP_query_zero]
    omega
  | case7 pageCount acc log hpc =>
    rw [crawlFrom]
    simp only [dif_neg hpc]
    omega

/-- C2 counterexample: the claim says that while scraping the last page
permitted by the cap no next-button query and no pagination click are
issued; but with a cap of 1 page the loop body on page 1 still queries
the next button and clicks it before the `while` condition stops the
crawl. -/
theorem crawl_clicks_on_last_permitted_page :
    (scrape_gupy envClickOnCap 1).2
      = [RAction.waitForSelector 1, RAction.queryNext 1, RAction.click 1] := by
  simp [scrape_gupy, crawlFrom, envClickOnCap, soupOf, extractPage, buttonActive]

/-- C2 amended: the cap is enforced at the top of the loop, so no
renderer action is ever issued at a page index above the cap — no page
beyond the cap is waited for or scraped — but on the last permitted page
the next button is still queried and, if enabled, clicked once before the
loop exits. -/
theorem crawl_actions_bounded_by_cap (env : Nat → PageEnv) (maxPages : Nat) :
    ∀ a ∈ (scrape_gupy env maxPages).2, RAction.page a ≤ maxPages := by
  intro a ha
  exact crawlFrom_log_pages env maxPages 1 [] [] (by simp) a ha

/-- Witness for C2 (amended): the click issued at the cap page of
`envClickOnCap` has page index within the cap. -/
theorem crawl_actions_bounded_by_cap_witness :
    RAction.page (RAction.click 1) ≤ 1 :=
  crawl_actions_bounded_by_cap envClickOnCap 1 (RAction.click 1)
    (by simp [scrape_gupy, crawlFrom, envClickOnCap, soupOf, extractPage, buttonActive])

/-- C10: the crawl loop visits at most `max_pages` pages per run — it
issues at most `max_pages` per-page `wait_for_selector` actions — and at
most 5 pages as called from the entry point; termination itself is
witnessed by `crawlFrom` being a total function whose decreasing measure
`maxPages + 1 - pageCount` is exactly the code's argument (every
iteration either returns, breaks, or increments `page_count`, which is
bounded by the cap). -/
theorem crawl_visits_at_most_cap_pages (env : Nat → PageEnv) (maxPages : Nat) :
    (scrape_gupy env maxPages).2.countP RAction.isWait ≤ maxPages ∧
    (scrapeDefault env).2.countP RAction.isWait ≤ 5 := by
  constructor
  · have h := crawlFrom_wait_count env maxPages 1 [] []
    simpa [scrape_gupy] using h
  · have h := crawlFrom_wait_count env 5 1 [] []
    simpa [scrapeDefault, scrape_gupy] using h

end JobScraper
